import Mathlib

/-
Verification of the local function pull-and-test harness
(`src/orbit/src/commands/functions.rs`).

Strings are modelled as `List Char`.  Machine effects (HTTP client,
filesystem, subprocess spawning) are modelled as oracle functions packaged
in environment structures; filesystem mutations are recorded as an event
trace so that ordering and absence of writes can be stated.
-/

namespace Orbit

abbrev Str := List Char

/-- Rust `str::to_lowercase` restricted to ASCII (all runtime keywords are
ASCII). -/
def lowerStr (s : Str) : Str := s.map Char.toLower

/-- Rust `str::starts_with`: does `s` begin with `p`? -/
def strStartsWith : Str → Str → Bool
  | _, [] => true
  | [], _ :: _ => false
  | a :: as_, b :: bs => a == b && strStartsWith as_ bs

/-- Rust `str::contains` for a literal pattern: does `s` have `p` as a
contiguous substring? -/
def containsStr : Str → Str → Bool
  | [], p => p.isEmpty
  | a :: as_, p => strStartsWith (a :: as_) p || containsStr as_ p

/-- Rust `str::rsplit_once('.')`: split at the last `'.'`, returning the
text before and after it, or `none` when there is no dot. -/
def rsplit_once_dot : Str → Option (Str × Str)
  | [] => none
  | c :: cs =>
    match rsplit_once_dot cs with
    | some (l, r) => some (c :: l, r)
    | none => if c = '.' then some ([], cs) else none

/-- Rust `str::rsplit('.').next()`: the text after the last dot, or the
whole string when there is no dot. -/
def last_dot_segment (s : Str) : Str :=
  match rsplit_once_dot s with
  | some (_, r) => r
  | none => s

/-- Rust `str::trim` (ASCII whitespace, matching the inputs the harness
sees). -/
def trimStr (s : Str) : Str :=
  ((s.dropWhile Char.isWhitespace).reverse.dropWhile Char.isWhitespace).reverse

/-- Character-level `replace('.', '/')` used for module paths. -/
def dots_to_slashes (m : Str) : Str :=
  m.map fun c => if c = '.' then '/' else c

/-- `enum RuntimeFamily` from functions.rs. -/
inductive RuntimeFamily
  | Python
  | Node
  | Go
  | Rust
  | Java
  | Unknown
deriving DecidableEq, Repr

/-- Body of `detect_runtime_family` applied to the already-lowercased
runtime string (`rt` in the source). -/
def classify_lowered (rt : Str) : RuntimeFamily :=
  if containsStr rt ("python".toList) then .Python
  else if containsStr rt ("node".toList) || containsStr rt ("javascript".toList)
      || containsStr rt ("typescript".toList) then .Node
  else if containsStr rt ("golang".toList) || rt == "go".toList
      || strStartsWith rt ("go:".toList) then .Go
  else if containsStr rt ("rust".toList) then .Rust
  else if containsStr rt ("java".toList) then .Java
  else .Unknown

/-- `detect_runtime_family`: keyword classification of the free-form
runtime string after lowercasing. -/
def detect_runtime_family (runtime : Str) : RuntimeFamily :=
  classify_lowered (lowerStr runtime)

/-- `source_file_rel_path`: conventional relative source path from the
runtime family and the dotted handler. -/
def source_file_rel_path (runtime handler : Str) : Str :=
  let family := detect_runtime_family runtime
  let module : Option Str :=
    match rsplit_once_dot handler with
    | some (l, _) => if l.isEmpty then none else some l
    | none => none
  match family with
  | .Python =>
    match module with
    | some m => dots_to_slashes m ++ ".py".toList
    | none => "main.py".toList
  | .Node =>
    match module with
    | some m => dots_to_slashes m ++ ".js".toList
    | none => "index.js".toList
  | .Go => "main.go".toList
  | .Rust => "src/main.rs".toList
  | .Java => "Main.java".toList
  | .Unknown => "function.txt".toList

/-- `OrbitError` from src/orbit/src/error.rs (payloads reduced to their
display text). -/
inductive OrbitError
  | Http (msg : Str)
  | Api (status : Nat) (message : Str)
  | Config (msg : Str)
  | Input (msg : Str)
  | Io (msg : Str)
  | Json (msg : Str)
deriving DecidableEq, Repr

/-- `std::process::Output`: exit-status success bit plus captured streams. -/
structure ProcOutput where
  success : Bool
  stdout : Str
  stderr : Str
deriving DecidableEq, Repr

/-- Oracle for the machine: `probe cmd` is the result of spawning
`cmd --version` (`none` = spawn failure, `some b` = exited, `b` = success);
`runProcess cmd args envVars` is the result of `Command::output()` for the
driver invocation (`Except.error` = io error from spawning). -/
structure ExecEnv where
  probe : Str → Option Bool
  runProcess : Str → List Str → List (Str × Str) → Except Str ProcOutput

/-- `status.map(|s| s.success()).unwrap_or(false)`: a non-zero exit and a
spawn failure are both "unavailable". -/
def probe_success (r : Option Bool) : Bool := r.getD false

/-- `find_available_binary`: first candidate whose version probe succeeds. -/
def find_available_binary (probe : Str → Option Bool) : List Str → Option Str
  | [] => none
  | c :: cs =>
    if probe_success (probe c) then some c else find_available_binary probe cs

def python_hint : Str :=
  "Install Python 3.10+.\n  macOS: brew install python\n  Ubuntu/Debian: sudo apt-get install -y python3".toList

def node_hint : Str :=
  "Install Node.js 18+.\n  macOS: brew install node\n  Ubuntu/Debian: sudo apt-get install -y nodejs npm".toList

def go_hint : Str :=
  "Install Go 1.22+.\n  macOS: brew install go\n  Ubuntu/Debian: sudo apt-get install -y golang-go".toList

def rust_hint : Str :=
  "Install Rust toolchain.\n  macOS/Linux: curl https://sh.rustup.rs -sSf | sh".toList

def java_hint : Str :=
  "Install JDK 17+.\n  macOS: brew install openjdk@17\n  Ubuntu/Debian: sudo apt-get install -y openjdk-17-jdk".toList

/-- The `missing_error` closure inside `ensure_toolchain`. -/
def missing_error (runtime label hint : Str) : OrbitError :=
  .Input ("Missing runtime toolchain for '".toList ++ runtime ++ "' (".toList
    ++ label ++ "). Install first.\n".toList ++ hint)

/-- The error `ensure_toolchain` returns for the Unknown family. -/
def unknown_runtime_error (runtime : Str) : OrbitError :=
  .Input ("Runtime '".toList ++ runtime
    ++ "' is not recognized. Pull succeeded, but local test needs a known runtime toolchain.".toList)

/-- `ensure_toolchain`: per-family candidate lists and failure guidance. -/
def ensure_toolchain (probe : Str → Option Bool) (runtime : Str)
    (family : RuntimeFamily) : Except OrbitError Str :=
  match family with
  | .Python =>
    match find_available_binary probe ["python3".toList, "python".toList] with
    | some c => .ok c
    | none => .error (missing_error runtime ("python".toList) python_hint)
  | .Node =>
    match find_available_binary probe ["node".toList] with
    | some c => .ok c
    | none => .error (missing_error runtime ("node".toList) node_hint)
  | .Go =>
    match find_available_binary probe ["go".toList] with
    | some c => .ok c
    | none => .error (missing_error runtime ("go".toList) go_hint)
  | .Rust =>
    match find_available_binary probe ["cargo".toList, "rustc".toList] with
    | some c => .ok c
    | none => .error (missing_error runtime ("rust".toList) rust_hint)
  | .Java =>
    match find_available_binary probe ["java".toList] with
    | some c => .ok c
    | none => .error (missing_error runtime ("java".toList) java_hint)
  | .Unknown => .error (unknown_runtime_error runtime)

/-- The inline Python driver program (braces written as \x7b/\x7d). -/
def python_driver_script : Str :=
  "\nimport importlib.util, json, pathlib, sys\n\nsource_path = pathlib.Path(sys.argv[1]).resolve()\nhandler_name = sys.argv[2]\npayload_path = pathlib.Path(sys.argv[3]).resolve()\n\nspec = importlib.util.spec_from_file_location(\"orbit_local_fn\", source_path)\nif spec is None or spec.loader is None:\n    raise RuntimeError(f\"failed to load module from \x7bsource_path\x7d\")\nmodule = importlib.util.module_from_spec(spec)\nspec.loader.exec_module(module)\n\nfn = getattr(module, handler_name, None)\nif fn is None:\n    raise RuntimeError(f\"handler \x27\x7bhandler_name\x7d\x27 not found in \x7bsource_path\x7d\")\n\nwith payload_path.open(\"r\", encoding=\"utf-8\") as fp:\n    payload = json.load(fp)\n\ntry:\n    result = fn(payload, \x7b\x7d)\nexcept TypeError:\n    result = fn(payload)\n\nprint(json.dumps(result, ensure_ascii=False, default=str))\n".toList

/-- The inline Node driver program (braces written as \x7b/\x7d). -/
def node_driver_script : Str :=
  "\nconst fs = require(\"fs\");\nconst path = require(\"path\");\n\n(async () => \x7b\n  const sourcePath = process.env.ORBIT_SOURCE_PATH;\n  const payloadPath = process.env.ORBIT_PAYLOAD_PATH;\n  const handlerRaw = process.env.ORBIT_HANDLER || \"handler\";\n  const payload = JSON.parse(fs.readFileSync(payloadPath, \"utf8\"));\n\n  const parts = handlerRaw.split(\".\");\n  const exportName = parts.length > 1 ? parts[parts.length - 1] : handlerRaw;\n  let modulePath = sourcePath;\n  if (parts.length > 1) \x7b\n    const moduleName = parts.slice(0, -1).join(\".\");\n    modulePath = path.resolve(path.dirname(sourcePath), moduleName.replace(/\\./g, \"/\") + \".js\");\n  \x7d\n\n  const mod = require(modulePath);\n  const fn = mod[exportName] || mod.default || mod.handler;\n\n  if (typeof fn !== \"function\") \x7b\n    throw new Error(`handler \x27$\x7bexportName\x7d\x27 not found in $\x7bmodulePath\x7d`);\n  \x7d\n\n  const result = await fn(payload, \x7b\x7d);\n  process.stdout.write(JSON.stringify(result, null, 2));\n\x7d)().catch((err) => \x7b\n  const msg = err && err.stack ? err.stack : String(err);\n  process.stderr.write(msg);\n  process.exit(1);\n\x7d);\n".toList

/-- Argument vector the harness passes to the Python interpreter. -/
def python_driver_args (source_path handler_name payload_path : Str) : List Str :=
  ["-c".toList, python_driver_script, source_path, handler_name, payload_path]

/-- `run_python_local_test`: spawn the interpreter on the inline driver,
translating a non-zero exit into an input error carrying trimmed stderr. -/
def run_python_local_test (env : ExecEnv) (python_cmd source_path handler payload_path : Str) :
    Except OrbitError Str :=
  let handler_name := last_dot_segment handler
  match env.runProcess python_cmd (python_driver_args source_path handler_name payload_path) [] with
  | .error e => .error (.Io e)
  | .ok out =>
    if !out.success then
      let stderr := trimStr out.stderr
      .error (.Input ("Local python test failed: ".toList
        ++ (if stderr.isEmpty then "unknown error".toList else stderr)))
    else
      .ok (trimStr out.stdout)

/-- Environment variables the harness passes to the Node interpreter. -/
def node_driver_env (source_path payload_path handler : Str) : List (Str × Str) :=
  [("ORBIT_SOURCE_PATH".toList, source_path),
   ("ORBIT_PAYLOAD_PATH".toList, payload_path),
   ("ORBIT_HANDLER".toList, handler)]

/-- `run_node_local_test`: same shape as the Python runner, inputs passed
via environment variables. -/
def run_node_local_test (env : ExecEnv) (node_cmd source_path handler payload_path : Str) :
    Except OrbitError Str :=
  match env.runProcess node_cmd ["-e".toList, node_driver_script]
      (node_driver_env source_path payload_path handler) with
  | .error e => .error (.Io e)
  | .ok out =>
    if !out.success then
      let stderr := trimStr out.stderr
      .error (.Input ("Local node test failed: ".toList
        ++ (if stderr.isEmpty then "unknown error".toList else stderr)))
    else
      .ok (trimStr out.stdout)

/-- `str::rsplit_once('/')` (used through `Path::parent`). -/
def rsplit_once_slash : Str → Option (Str × Str)
  | [] => none
  | c :: cs =>
    match rsplit_once_slash cs with
    | some (l, r) => some (c :: l, r)
    | none => if c = '/' then some ([], cs) else none

/-- `source_path.parent().unwrap_or(Path::new(".")).display()`. -/
def parent_dir_display (p : Str) : Str :=
  match rsplit_once_slash p with
  | some (l, _) => l
  | none => if p.isEmpty then ".".toList else []

def go_skip_reason (tool source_path : Str) : Str :=
  "Toolchain '".toList ++ tool
    ++ "' is installed. Auto local runner is currently available for python/node runtimes only. Run go tests manually in ".toList
    ++ parent_dir_display source_path ++ ".".toList

def rust_skip_reason (tool source_path : Str) : Str :=
  "Toolchain '".toList ++ tool
    ++ "' is installed. Auto local runner is currently available for python/node runtimes only. Run cargo commands manually in ".toList
    ++ parent_dir_display source_path ++ ".".toList

def java_skip_reason (tool source_path : Str) : Str :=
  "Toolchain '".toList ++ tool
    ++ "' is installed. Auto local runner is currently available for python/node runtimes only. Compile/run manually from ".toList
    ++ parent_dir_display source_path ++ ".".toList

def unknown_skip_reason (runtime : Str) : Str :=
  "Runtime '".toList ++ runtime
    ++ "' is not recognized for auto local test. Source has been pulled for manual testing.".toList

/-- `enum LocalTestOutcome` from functions.rs. -/
inductive LocalTestOutcome
  | Executed (command : Str) (output : Str)
  | Skipped (reason : Str)
deriving DecidableEq, Repr

/-- `run_local_test`: classify, locate the toolchain, then dispatch. -/
def run_local_test (env : ExecEnv) (runtime handler source_path payload_path : Str) :
    Except OrbitError LocalTestOutcome :=
  let family := detect_runtime_family runtime
  match ensure_toolchain env.probe runtime family with
  | .error e => .error e
  | .ok tool =>
    match family with
    | .Python =>
      match run_python_local_test env tool source_path handler payload_path with
      | .error e => .error e
      | .ok output => .ok (.Executed (tool ++ " <inline-runner>".toList) output)
    | .Node =>
      match run_node_local_test env tool source_path handler payload_path with
      | .error e => .error e
      | .ok output => .ok (.Executed (tool ++ " -e <inline-runner>".toList) output)
    | .Go => .ok (.Skipped (go_skip_reason tool source_path))
    | .Rust => .ok (.Skipped (rust_skip_reason tool source_path))
    | .Java => .ok (.Skipped (java_skip_reason tool source_path))
    | .Unknown => .ok (.Skipped (unknown_skip_reason runtime))

/-- `serde_json::Value`, reduced to the shapes the harness manipulates. -/
inductive Json
  | null
  | bool (b : Bool)
  | num (n : Int)
  | str (s : Str)
  | arr (elems : List Json)
  | obj (fields : List (Str × Json))

/-- Object-field lookup (first matching key, as in a serde map). -/
def Json.lookup_field : List (Str × Json) → Str → Option Json
  | [], _ => none
  | (k, v) :: rest, key => if k = key then some v else Json.lookup_field rest key

/-- `Value::get(key)` for objects. -/
def Json.get : Json → Str → Option Json
  | .obj fields, key => Json.lookup_field fields key
  | _, _ => none

/-- `Value::as_str`. -/
def Json.as_str : Json → Option Str
  | .str s => some s
  | _ => none

/-- `Value::index` (`value[key]`): the field, or `Null` when absent. -/
def Json.index (j : Json) (key : Str) : Json := (j.get key).getD .null

/-- `fn_info.get("runtime").and_then(|v| v.as_str()).unwrap_or("unknown")`. -/
def extract_runtime (fn_info : Json) : Str :=
  ((fn_info.get ("runtime".toList)).bind Json.as_str).getD ("unknown".toList)

/-- `fn_info.get("handler").and_then(|v| v.as_str()).unwrap_or("handler")`. -/
def extract_handler (fn_info : Json) : Str :=
  ((fn_info.get ("handler".toList)).bind Json.as_str).getD ("handler".toList)

/-- `code_info.get("source_code").or_else(|| code_info.get("code"))
    .and_then(|v| v.as_str()).unwrap_or("")`. -/
def extract_source_code (code_info : Json) : Str :=
  ((match code_info.get ("source_code".toList) with
    | some v => some v
    | none => code_info.get ("code".toList)).bind Json.as_str).getD []

/-- `PathBuf::join` on displayed paths. -/
def path_join (a b : Str) : Str :=
  if a.isEmpty then b
  else if a.getLast? = some '/' then a ++ b
  else a ++ "/".toList ++ b

/-- `Path::parent` on displayed paths. -/
def path_parent (p : Str) : Option Str :=
  match rsplit_once_slash p with
  | some (l, _) => some l
  | none => if p.isEmpty then none else some []

/-- A recorded filesystem mutation. -/
inductive FsEvent
  | create_dir (p : Str)
  | write_file (p : Str) (content : Str)
deriving DecidableEq, Repr

/-- Oracle for the world `run_pull` interacts with: the control-plane
client, directory existence, filesystem call results, `serde_json`
parsing/serialization, and the subprocess environment. -/
structure PullEnv where
  client_get : Str → Except OrbitError Json
  dir_exists : Str → Bool
  create_dir_all : Str → Except Str Unit
  fs_write : Str → Str → Except Str Unit
  read_to_string : Str → Except Str Str
  from_str : Str → Except Str Json
  to_string_pretty : Json → Except Str Str
  proc : ExecEnv

/-- `parse_json_payload`: inline JSON beats a payload file; neither means
`{}`. -/
def parse_json_payload (env : PullEnv) (payload payload_file : Option Str) :
    Except OrbitError Json :=
  match payload, payload_file with
  | some p, _ =>
    match env.from_str p with
    | .ok v => .ok v
    | .error e => .error (.Input ("Invalid JSON payload: ".toList ++ e))
  | none, some path =>
    match env.read_to_string path with
    | .error e => .error (.Input ("Cannot read file ".toList ++ path ++ ": ".toList ++ e))
    | .ok content =>
      match env.from_str content with
      | .ok v => .ok v
      | .error e => .error (.Input ("Invalid JSON in file: ".toList ++ e))
  | none, none => .ok (.obj [])

/-- The `json!` metadata record written by `run_pull`. -/
def pull_metadata (name runtime handler source_rel_path : Str) (fn_info : Json) : Json :=
  .obj [("name".toList, .str name),
        ("runtime".toList, .str runtime),
        ("handler".toList, .str handler),
        ("source_file".toList, .str source_rel_path),
        ("payload_file".toList, .str ("payload.json".toList)),
        ("function".toList, fn_info)]

/-- Trace contribution of the parent-directory creation step. -/
def par_trace (o : Option Str) : List FsEvent :=
  match o with
  | some par => [FsEvent.create_dir par]
  | none => []

/-- Arguments of the `functions pull` subcommand that reach `run_pull`. -/
structure PullArgs where
  name : Str
  output_dir : Str
  force : Bool
  test : Bool
  payload : Option Str
  payload_file : Option Str

/-- `run_pull`: fetch, guard, lay out the directory, write source then
payload then metadata, optionally run the local test.  Returns the command
result together with the trace of successful filesystem mutations in
order. -/
def run_pull (env : PullEnv) (a : PullArgs) : Except OrbitError Unit × List FsEvent :=
  match env.client_get ("/functions/".toList ++ a.name) with
  | .error e => (.error e, [])
  | .ok fn_info =>
  match env.client_get ("/functions/".toList ++ a.name ++ "/code".toList) with
  | .error e => (.error e, [])
  | .ok code_info =>
  let runtime := extract_runtime fn_info
  let handler := extract_handler fn_info
  let source_code := extract_source_code code_info
  if (trimStr source_code).isEmpty then
    (.error (.Input ("Function '".toList ++ a.name
      ++ "' does not have source code in control plane.".toList)), [])
  else
  let fn_dir := path_join a.output_dir a.name
  if env.dir_exists fn_dir && !a.force then
    (.error (.Input ("Directory '".toList ++ fn_dir
      ++ "' already exists. Use --force to overwrite.".toList)), [])
  else
  match env.create_dir_all fn_dir with
  | .error e => (.error (.Io e), [])
  | .ok _ =>
  let tr0 := [FsEvent.create_dir fn_dir]
  let source_rel_path := source_file_rel_path runtime handler
  let source_path := path_join fn_dir source_rel_path
  let par_step : Except Str Unit :=
    match path_parent source_path with
    | some par => env.create_dir_all par
    | none => .ok ()
  match par_step with
  | .error e => (.error (.Io e), tr0)
  | .ok _ =>
  let tr1 := tr0 ++ (match path_parent source_path with
    | some par => [FsEvent.create_dir par]
    | none => [])
  match env.fs_write source_path source_code with
  | .error e => (.error (.Io e), tr1)
  | .ok _ =>
  let tr2 := tr1 ++ [FsEvent.write_file source_path source_code]
  match parse_json_payload env a.payload a.payload_file with
  | .error e => (.error e, tr2)
  | .ok payload_value =>
  let payload_path := path_join fn_dir ("payload.json".toList)
  match env.to_string_pretty payload_value with
  | .error e => (.error (.Json e), tr2)
  | .ok payload_text =>
  match env.fs_write payload_path payload_text with
  | .error e => (.error (.Io e), tr2)
  | .ok _ =>
  let tr3 := tr2 ++ [FsEvent.write_file payload_path payload_text]
  let metadata := pull_metadata a.name runtime handler source_rel_path fn_info
  let metadata_path := path_join fn_dir ("function.meta.json".toList)
  match env.to_string_pretty metadata with
  | .error e => (.error (.Json e), tr3)
  | .ok metadata_text =>
  match env.fs_write metadata_path metadata_text with
  | .error e => (.error (.Io e), tr3)
  | .ok _ =>
  let tr4 := tr3 ++ [FsEvent.write_file metadata_path metadata_text]
  let result : Except OrbitError Unit :=
    if a.test then
      match run_local_test env.proc
          ((Json.as_str (metadata.index ("runtime".toList))).getD ("unknown".toList))
          ((Json.as_str (metadata.index ("handler".toList))).getD ("handler".toList))
          source_path payload_path with
      | .error e => .error e
      | .ok _ => .ok ()
    else
      .ok ()
  (result, tr4)

/-! ### Helper lemmas -/

/-- Complete case analysis of the classifier on the lowered runtime
string: each family is reached exactly when its branch condition holds and
every earlier branch condition fails. -/
theorem classify_lowered_cases (rt : Str) :
    (classify_lowered rt = .Python ↔ containsStr rt ("python".toList) = true)
    ∧ (classify_lowered rt = .Node ↔
        containsStr rt ("python".toList) = false
          ∧ (containsStr rt ("node".toList) || containsStr rt ("javascript".toList)
              || containsStr rt ("typescript".toList)) = true)
    ∧ (classify_lowered rt = .Go ↔
        containsStr rt ("python".toList) = false
          ∧ (containsStr rt ("node".toList) || containsStr rt ("javascript".toList)
              || containsStr rt ("typescript".toList)) = false
          ∧ (containsStr rt ("golang".toList) || rt == "go".toList
              || strStartsWith rt ("go:".toList)) = true)
    ∧ (classify_lowered rt = .Rust ↔
        containsStr rt ("python".toList) = false
          ∧ (containsStr rt ("node".toList) || containsStr rt ("javascript".toList)
              || containsStr rt ("typescript".toList)) = false
          ∧ (containsStr rt ("golang".toList) || rt == "go".toList
              || strStartsWith rt ("go:".toList)) = false
          ∧ containsStr rt ("rust".toList) = true)
    ∧ (classify_lowered rt = .Java ↔
        containsStr rt ("python".toList) = false
          ∧ (containsStr rt ("node".toList) || containsStr rt ("javascript".toList)
              || containsStr rt ("typescript".toList)) = false
          ∧ (containsStr rt ("golang".toList) || rt == "go".toList
              || strStartsWith rt ("go:".toList)) = false
          ∧ containsStr rt ("rust".toList) = false
          ∧ containsStr rt ("java".toList) = true)
    ∧ (classify_lowered rt = .Unknown ↔
        containsStr rt ("python".toList) = false
          ∧ (containsStr rt ("node".toList) || containsStr rt ("javascript".toList)
              || containsStr rt ("typescript".toList)) = false
          ∧ (containsStr rt ("golang".toList) || rt == "go".toList
              || strStartsWith rt ("go:".toList)) = false
          ∧ containsStr rt ("rust".toList) = false
          ∧ containsStr rt ("java".toList) = false) := by
  unfold classify_lowered
  refine ⟨?_, ?_, ?_, ?_, ?_, ?_⟩ <;> (repeat' split) <;> (try simp_all) <;>
    (intros; simp_all)

/-- `rsplit_once_dot` finds nothing exactly when the string has no dot. -/
theorem rsplit_once_dot_eq_none (h : Str) : rsplit_once_dot h = none ↔ '.' ∉ h := by
  induction h with
  | nil => simp [rsplit_once_dot]
  | cons c cs ih =>
    simp only [rsplit_once_dot]
    cases hr : rsplit_once_dot cs with
    | some p =>
      have hin : '.' ∈ cs := by
        by_contra hno
        rw [← ih] at hno
        simp [hr] at hno
      simp [hr, hin]
    | none =>
      have hno : '.' ∉ cs := ih.mp hr
      by_cases hc : c = '.'
      · simp [hc]
      · have hcs : ¬ '.' = c := fun hh => hc hh.symm
        simp only [hr]
        rw [if_neg hc]
        simp [hno, hcs]

/-! ### Claims -/

/-- C1: counterexample — the claim's third example fails on the code:
`source_file_rel_path "go1.22" "main.Handle"` is `"function.txt"`, not
`"main.go"`, because `"go1.22"` is not classified as the Go family (it is
not equal to `"go"`, does not start with `"go:"`, and does not contain
`"golang"`). -/
theorem c1_counterexample :
    source_file_rel_path ("go1.22".toList) ("main.Handle".toList) = "function.txt".toList
    ∧ "function.txt".toList ≠ "main.go".toList
    ∧ detect_runtime_family ("go1.22".toList) = RuntimeFamily.Unknown := by
  refine ⟨by decide, by decide, by decide⟩

/-- C1 (amended): `source_file_rel_path` is deterministic and maps
`("python:3.11", "pkg.sub.handler")` to `"pkg/sub.py"` and
`("node18", "handler")` to `"index.js"`; a runtime the Go rules accept,
such as `"go:1.22"`, maps with `"main.Handle"` to `"main.go"`, while
`"go1.22"` itself classifies as Unknown and maps to `"function.txt"`. -/
theorem c1_amended :
    (∀ runtime handler : Str,
      source_file_rel_path runtime handler = source_file_rel_path runtime handler)
    ∧ source_file_rel_path ("python:3.11".toList) ("pkg.sub.handler".toList) = "pkg/sub.py".toList
    ∧ source_file_rel_path ("node18".toList) ("handler".toList) = "index.js".toList
    ∧ source_file_rel_path ("go:1.22".toList) ("main.Handle".toList) = "main.go".toList
    ∧ source_file_rel_path ("go1.22".toList) ("main.Handle".toList) = "function.txt".toList :=
  ⟨fun _ _ => rfl, by decide, by decide, by decide, by decide⟩

/-- C4: counterexample — the branch conditions do overlap, and the
contains-"java" rule does not hold universally: `"javascript"` contains
`"java"` yet classifies as Node, not Java. -/
theorem c4_counterexample :
    containsStr (lowerStr ("javascript".toList)) ("java".toList) = true
    ∧ detect_runtime_family ("javascript".toList) = RuntimeFamily.Node
    ∧ RuntimeFamily.Node ≠ RuntimeFamily.Java := by
  refine ⟨by decide, by decide, by decide⟩

/-- C4 (amended): classification is total and case-insensitive (it depends
only on the lowercased runtime string), and the five keyword branches are
checked in order with the first match winning: contains "python" gives
Python; otherwise node/javascript/typescript gives Node; otherwise
golang / equals "go" / starts with "go:" gives Go; otherwise rust gives
Rust; otherwise java gives Java; otherwise Unknown.  Later branch keywords
fire only when every earlier condition fails, so overlapping conditions
(such as "javascript", which matches both the Node and Java keywords)
resolve to the earlier branch. -/
theorem c4_amended (s : Str) :
    (∀ t, lowerStr s = lowerStr t → detect_runtime_family s = detect_runtime_family t)
    ∧ (detect_runtime_family s = .Python ↔ containsStr (lowerStr s) ("python".toList) = true)
    ∧ (detect_runtime_family s = .Node ↔
        containsStr (lowerStr s) ("python".toList) = false
          ∧ (containsStr (lowerStr s) ("node".toList) || containsStr (lowerStr s) ("javascript".toList)
              || containsStr (lowerStr s) ("typescript".toList)) = true)
    ∧ (detect_runtime_family s = .Go ↔
        containsStr (lowerStr s) ("python".toList) = false
          ∧ (containsStr (lowerStr s) ("node".toList) || containsStr (lowerStr s) ("javascript".toList)
              || containsStr (lowerStr s) ("typescript".toList)) = false
          ∧ (containsStr (lowerStr s) ("golang".toList) || lowerStr s == "go".toList
              || strStartsWith (lowerStr s) ("go:".toList)) = true)
    ∧ (detect_runtime_family s = .Rust ↔
        containsStr (lowerStr s) ("python".toList) = false
          ∧ (containsStr (lowerStr s) ("node".toList) || containsStr (lowerStr s) ("javascript".toList)
              || containsStr (lowerStr s) ("typescript".toList)) = false
          ∧ (containsStr (lowerStr s) ("golang".toList) || lowerStr s == "go".toList
              || strStartsWith (lowerStr s) ("go:".toList)) = false
          ∧ containsStr (lowerStr s) ("rust".toList) = true)
    ∧ (detect_runtime_family s = .Java ↔
        containsStr (lowerStr s) ("python".toList) = false
          ∧ (containsStr (lowerStr s) ("node".toList) || containsStr (lowerStr s) ("javascript".toList)
              || containsStr (lowerStr s) ("typescript".toList)) = false
          ∧ (containsStr (lowerStr s) ("golang".toList) || lowerStr s == "go".toList
              || strStartsWith (lowerStr s) ("go:".toList)) = false
          ∧ containsStr (lowerStr s) ("rust".toList) = false
          ∧ containsStr (lowerStr s) ("java".toList) = true)
    ∧ (detect_runtime_family s = .Unknown ↔
        containsStr (lowerStr s) ("python".toList) = false
          ∧ (containsStr (lowerStr s) ("node".toList) || containsStr (lowerStr s) ("javascript".toList)
              || containsStr (lowerStr s) ("typescript".toList)) = false
          ∧ (containsStr (lowerStr s) ("golang".toList) || lowerStr s == "go".toList
              || strStartsWith (lowerStr s) ("go:".toList)) = false
          ∧ containsStr (lowerStr s) ("rust".toList) = false
          ∧ containsStr (lowerStr s) ("java".toList) = false) := by
  refine ⟨fun t h => by unfold detect_runtime_family; rw [h], ?_⟩
  simpa [detect_runtime_family] using classify_lowered_cases (lowerStr s)

/-- C4 witness: the case-insensitivity conjunct applied at a concrete
input. -/
theorem c4_amended_witness :
    lowerStr ("JavaScript".toList) = lowerStr ("javascript".toList)
    ∧ detect_runtime_family ("JavaScript".toList) = detect_runtime_family ("javascript".toList) :=
  ⟨by decide, (c4_amended ("JavaScript".toList)).1 ("javascript".toList) (by decide)⟩

/-- C10: for every Python- or Node-family runtime, a handler with no dot
or with empty text before its last dot (such as ".run") resolves to the
family default file name — "main.py" for Python, "index.js" for Node; a
leading-dot handler never produces an empty module path. -/
theorem c10_default_name (runtime handler : Str)
    (hfam : detect_runtime_family runtime = .Python ∨ detect_runtime_family runtime = .Node)
    (hmod : '.' ∉ handler ∨ ∃ r, rsplit_once_dot handler = some ([], r)) :
    source_file_rel_path runtime handler =
      (if detect_runtime_family runtime = .Python then "main.py".toList
       else "index.js".toList) := by
  have hsplit : rsplit_once_dot handler = none
      ∨ ∃ r, rsplit_once_dot handler = some ([], r) := by
    rcases hmod with hno | h
    · exact Or.inl ((rsplit_once_dot_eq_none handler).mpr hno)
    · exact Or.inr h
  unfold source_file_rel_path
  rcases hsplit with hr | ⟨r, hr⟩ <;> rcases hfam with h | h <;> rw [h] <;> simp [hr]

/-- C10 witness: the leading-dot handler ".run" with a Python runtime
resolves to "main.py". -/
theorem c10_default_name_witness :
    (detect_runtime_family ("python:3.11".toList) = .Python
      ∨ detect_runtime_family ("python:3.11".toList) = .Node)
    ∧ ('.' ∉ (".run".toList) ∨ ∃ r, rsplit_once_dot (".run".toList) = some ([], r))
    ∧ source_file_rel_path ("python:3.11".toList) (".run".toList) =
        (if detect_runtime_family ("python:3.11".toList) = .Python then "main.py".toList
         else "index.js".toList) :=
  ⟨Or.inl (by decide), Or.inr ⟨"run".toList, by decide⟩,
    c10_default_name _ _ (Or.inl (by decide)) (Or.inr ⟨"run".toList, by decide⟩)⟩

/-- C2 (code evaluated at the failing input): for a runtime that
classifies as Unknown, `run_local_test` returns the input error raised by
`ensure_toolchain` — never the Skipped outcome the dispatch's Unknown arm
would build, because `ensure_toolchain` fails before dispatch.  The
Unknown Skipped arm of `run_local_test` is unreachable. -/
theorem c2_unknown_runtime_errors (env : ExecEnv) :
    run_local_test env ("dotnet8".toList) ("handler".toList)
        ("out/fn/function.txt".toList) ("out/fn/payload.json".toList)
      = .error (unknown_runtime_error ("dotnet8".toList)) := rfl

/-- A machine with no toolchains at all: every version probe fails to
spawn. -/
def no_toolchain_env : ExecEnv :=
  { probe := fun _ => none, runProcess := fun _ _ _ => .error [] }

/-- C3: counterexample — with no Go toolchain on the machine,
`run_local_test` for the Go-classified runtime "golang" returns the
missing-toolchain error, not a Skipped outcome, so the outcome does not
stay `Skipped` "regardless of whether a matching toolchain binary is
present". -/
theorem c3_counterexample :
    run_local_test no_toolchain_env ("golang".toList) ("handler".toList)
        ("out/fn/main.go".toList) ("out/fn/payload.json".toList)
      = .error (missing_error ("golang".toList) ("go".toList) go_hint) := rfl

/-- C3 (amended): for Go-, Rust-, and Java-classified runtimes
`run_local_test` never returns Executed: when the family's version probe
finds a toolchain it returns Skipped with the family's manual-instructions
reason (naming the found tool), and when no toolchain is found it fails
with the family's missing-toolchain error rather than skipping. -/
theorem c3_amended (env : ExecEnv) (runtime handler source_path payload_path : Str)
    (hfam : detect_runtime_family runtime = .Go ∨ detect_runtime_family runtime = .Rust
      ∨ detect_runtime_family runtime = .Java) :
    (∀ cmd out, run_local_test env runtime handler source_path payload_path
        ≠ .ok (.Executed cmd out))
    ∧ (detect_runtime_family runtime = .Go →
        run_local_test env runtime handler source_path payload_path
          = match find_available_binary env.probe ["go".toList] with
            | some tool => .ok (.Skipped (go_skip_reason tool source_path))
            | none => .error (missing_error runtime ("go".toList) go_hint))
    ∧ (detect_runtime_family runtime = .Rust →
        run_local_test env runtime handler source_path payload_path
          = match find_available_binary env.probe ["cargo".toList, "rustc".toList] with
            | some tool => .ok (.Skipped (rust_skip_reason tool source_path))
            | none => .error (missing_error runtime ("rust".toList) rust_hint))
    ∧ (detect_runtime_family runtime = .Java →
        run_local_test env runtime handler source_path payload_path
          = match find_available_binary env.probe ["java".toList] with
            | some tool => .ok (.Skipped (java_skip_reason tool source_path))
            | none => .error (missing_error runtime ("java".toList) java_hint)) := by
  have hgo : detect_runtime_family runtime = .Go →
      run_local_test env runtime handler source_path payload_path
        = match find_available_binary env.probe ["go".toList] with
          | some tool => .ok (.Skipped (go_skip_reason tool source_path))
          | none => .error (missing_error runtime ("go".toList) go_hint) := by
    intro h
    simp only [run_local_test, ensure_toolchain, h]
    cases hf : find_available_binary env.probe ["go".toList] <;> simp [hf]
  have hrust : detect_runtime_family runtime = .Rust →
      run_local_test env runtime handler source_path payload_path
        = match find_available_binary env.probe ["cargo".toList, "rustc".toList] with
          | some tool => .ok (.Skipped (rust_skip_reason tool source_path))
          | none => .error (missing_error runtime ("rust".toList) rust_hint) := by
    intro h
    simp only [run_local_test, ensure_toolchain, h]
    cases hf : find_available_binary env.probe ["cargo".toList, "rustc".toList] <;> simp [hf]
  have hjava : detect_runtime_family runtime = .Java →
      run_local_test env runtime handler source_path payload_path
        = match find_available_binary env.probe ["java".toList] with
          | some tool => .ok (.Skipped (java_skip_reason tool source_path))
          | none => .error (missing_error runtime ("java".toList) java_hint) := by
    intro h
    simp only [run_local_test, ensure_toolchain, h]
    cases hf : find_available_binary env.probe ["java".toList] <;> simp [hf]
  refine ⟨?_, hgo, hrust, hjava⟩
  intro cmd out
  rcases hfam with h | h | h
  · rw [hgo h]
    cases hf : find_available_binary env.probe ["go".toList] <;> simp
  · rw [hrust h]
    cases hf : find_available_binary env.probe ["cargo".toList, "rustc".toList] <;> simp
  · rw [hjava h]
    cases hf : find_available_binary env.probe ["java".toList] <;> simp

/-- A machine where exactly the `go` binary answers its version probe. -/
def go_present_env : ExecEnv :=
  { probe := fun c => if c == "go".toList then some true else none,
    runProcess := fun _ _ _ => .error [] }

/-- C3 witness: the amended claim applied on a machine with a Go
toolchain — the outcome is Skipped with the Go manual-instructions
reason. -/
theorem c3_amended_witness :
    detect_runtime_family ("golang".toList) = .Go
    ∧ run_local_test go_present_env ("golang".toList) ("handler".toList)
        ("out/fn/main.go".toList) ("out/fn/payload.json".toList)
      = .ok (.Skipped (go_skip_reason ("go".toList) ("out/fn/main.go".toList))) := by
  refine ⟨by decide, ?_⟩
  rw [(c3_amended go_present_env ("golang".toList) ("handler".toList)
      ("out/fn/main.go".toList) ("out/fn/payload.json".toList)
      (Or.inl (by decide))).2.1 (by decide)]
  rfl

/-- Scanning a candidate list whose front all fails stops at the first
succeeding candidate. -/
theorem find_available_binary_first (probe : Str → Option Bool) (pre : List Str)
    (c : Str) (suf : List Str)
    (hpre : ∀ b ∈ pre, probe_success (probe b) = false)
    (hc : probe_success (probe c) = true) :
    find_available_binary probe (pre ++ c :: suf) = some c := by
  induction pre with
  | nil => simp [find_available_binary, hc]
  | cons p ps ih =>
    have hp : probe_success (probe p) = false := hpre p (by simp)
    simp only [List.cons_append, find_available_binary, hp]
    exact ih fun b hb => hpre b (by simp [hb])

/-- If every candidate fails its probe, the scan returns nothing. -/
theorem find_available_binary_none (probe : Str → Option Bool) (cs : List Str)
    (h : ∀ b ∈ cs, probe_success (probe b) = false) :
    find_available_binary probe cs = none := by
  induction cs with
  | nil => rfl
  | cons p ps ih =>
    have hp : probe_success (probe p) = false := h p (by simp)
    simp only [find_available_binary, hp]
    exact ih fun b hb => h b (by simp [hb])

/-- A returned candidate comes from the list and passed its probe. -/
theorem find_available_binary_sound (probe : Str → Option Bool) (cs : List Str) (c : Str)
    (h : find_available_binary probe cs = some c) :
    c ∈ cs ∧ probe_success (probe c) = true := by
  induction cs with
  | nil => simp [find_available_binary] at h
  | cons p ps ih =>
    by_cases hp : probe_success (probe p) = true
    · have hpc : p = c := by simpa [find_available_binary, hp] using h
      exact ⟨by simp [hpc], hpc ▸ hp⟩
    · have hp' : probe_success (probe p) = false := by
        cases hx : probe_success (probe p)
        · rfl
        · exact absurd hx hp
      have h' : find_available_binary probe ps = some c := by
        simpa [find_available_binary, hp'] using h
      obtain ⟨hmem, hok⟩ := ih h'
      exact ⟨by simp [hmem], hok⟩

/-- C8: the toolchain locator probes its family's candidate list in order
(Python: python3 then python; Node: node; Go: go; Rust: cargo then rustc;
Java: java), returns the first candidate whose version probe exits zero,
treats a spawn failure and a non-zero exit identically as unavailable,
fails with the family-specific install-guidance error when no candidate
succeeds, and for the Unknown family fails immediately without consulting
the probe oracle at all. -/
theorem c8_toolchain_locator (probe : Str → Option Bool) (runtime : Str) :
    (ensure_toolchain probe runtime .Python
      = match find_available_binary probe ["python3".toList, "python".toList] with
        | some c => .ok c
        | none => .error (missing_error runtime ("python".toList) python_hint))
    ∧ (ensure_toolchain probe runtime .Node
      = match find_available_binary probe ["node".toList] with
        | some c => .ok c
        | none => .error (missing_error runtime ("node".toList) node_hint))
    ∧ (ensure_toolchain probe runtime .Go
      = match find_available_binary probe ["go".toList] with
        | some c => .ok c
        | none => .error (missing_error runtime ("go".toList) go_hint))
    ∧ (ensure_toolchain probe runtime .Rust
      = match find_available_binary probe ["cargo".toList, "rustc".toList] with
        | some c => .ok c
        | none => .error (missing_error runtime ("rust".toList) rust_hint))
    ∧ (ensure_toolchain probe runtime .Java
      = match find_available_binary probe ["java".toList] with
        | some c => .ok c
        | none => .error (missing_error runtime ("java".toList) java_hint))
    ∧ (∀ probe2, ensure_toolchain probe runtime .Unknown
        = ensure_toolchain probe2 runtime .Unknown)
    ∧ (ensure_toolchain probe runtime .Unknown
        = .error (unknown_runtime_error runtime))
    ∧ (∀ pre c suf, (∀ b ∈ pre, probe_success (probe b) = false) →
        probe_success (probe c) = true →
        find_available_binary probe (pre ++ c :: suf) = some c)
    ∧ (∀ cs, (∀ b ∈ cs, probe_success (probe b) = false) →
        find_available_binary probe cs = none)
    ∧ (∀ cs c, find_available_binary probe cs = some c →
        c ∈ cs ∧ probe_success (probe c) = true)
    ∧ probe_success none = false ∧ probe_success (some false) = false :=
  ⟨rfl, rfl, rfl, rfl, rfl, fun _ => rfl, rfl,
    find_available_binary_first probe, find_available_binary_none probe,
    find_available_binary_sound probe, rfl, rfl⟩

/-- A machine where `python3` is broken (non-zero version probe) but
`python` answers. -/
def python_second_env_probe : Str → Option Bool :=
  fun c => if c == "python".toList then some true else some false

/-- C8 witness: the first-success conjunct applied concretely — with
`python3` failing its probe and `python` succeeding, the Python candidate
scan returns `python`. -/
theorem c8_toolchain_locator_witness :
    (∀ b ∈ ["python3".toList], probe_success (python_second_env_probe b) = false)
    ∧ probe_success (python_second_env_probe ("python".toList)) = true
    ∧ find_available_binary python_second_env_probe
        (["python3".toList] ++ "python".toList :: []) = some ("python".toList) :=
  ⟨by decide, by decide,
    (c8_toolchain_locator python_second_env_probe []).2.2.2.2.2.2.2.1
      ["python3".toList] ("python".toList) [] (by decide) (by decide)⟩

/-- Evaluation shape of the Python runner. -/
theorem run_python_local_test_eval (env : ExecEnv) (cmd sp hdl pp : Str) :
    run_python_local_test env cmd sp hdl pp =
      match env.runProcess cmd (python_driver_args sp (last_dot_segment hdl) pp) [] with
      | .error msg => .error (.Io msg)
      | .ok out =>
        if out.success then .ok (trimStr out.stdout)
        else .error (.Input ("Local python test failed: ".toList
          ++ (if (trimStr out.stderr).isEmpty then "unknown error".toList
              else trimStr out.stderr))) := by
  simp only [run_python_local_test]
  cases hp : env.runProcess cmd (python_driver_args sp (last_dot_segment hdl) pp) [] with
  | error msg => rfl
  | ok out => cases hx : out.success <;> simp [hx]

/-- Evaluation shape of the Node runner. -/
theorem run_node_local_test_eval (env : ExecEnv) (cmd sp hdl pp : Str) :
    run_node_local_test env cmd sp hdl pp =
      match env.runProcess cmd ["-e".toList, node_driver_script]
          (node_driver_env sp pp hdl) with
      | .error msg => .error (.Io msg)
      | .ok out =>
        if out.success then .ok (trimStr out.stdout)
        else .error (.Input ("Local node test failed: ".toList
          ++ (if (trimStr out.stderr).isEmpty then "unknown error".toList
              else trimStr out.stderr))) := by
  simp only [run_node_local_test]
  cases hp : env.runProcess cmd ["-e".toList, node_driver_script] (node_driver_env sp pp hdl) with
  | error msg => rfl
  | ok out => cases hx : out.success <;> simp [hx]

/-- A machine where every probe answers but spawning the driver process
itself fails with an io error. -/
def spawn_fail_env : ExecEnv :=
  { probe := fun _ => some true,
    runProcess := fun _ _ _ => .error ("No such file or directory".toList) }

/-- C9: counterexample — toolchain location succeeds, the driver never
exits non-zero (it is never spawned), yet `run_local_test` still fails:
the io error from the failed spawn is propagated.  So toolchain-location
failure and a non-zero driver exit are not the only failure causes. -/
theorem c9_counterexample :
    ensure_toolchain spawn_fail_env.probe ("python:3.11".toList)
        (detect_runtime_family ("python:3.11".toList)) = .ok ("python3".toList)
    ∧ run_local_test spawn_fail_env ("python:3.11".toList) ("app.handler".toList)
        ("out/fn/app.py".toList) ("out/fn/payload.json".toList)
      = .error (.Io ("No such file or directory".toList)) :=
  ⟨rfl, rfl⟩

/-- C9 (amended): `run_local_test` fails only when toolchain location
fails, when the driver process cannot be spawned (the spawn's io error is
propagated), or when the spawned driver exits non-zero — and in the
non-zero-exit case the error message carries the subprocess's stderr
trimmed of whitespace, or the fallback text "unknown error" when that
stream was empty. -/
theorem c9_amended (env : ExecEnv) (runtime handler source_path payload_path : Str)
    (e : OrbitError) :
    (run_local_test env runtime handler source_path payload_path = .error e →
      ensure_toolchain env.probe runtime (detect_runtime_family runtime) = .error e
      ∨ (∃ tool, ensure_toolchain env.probe runtime (detect_runtime_family runtime) = .ok tool
          ∧ detect_runtime_family runtime = .Python
          ∧ run_python_local_test env tool source_path handler payload_path = .error e)
      ∨ (∃ tool, ensure_toolchain env.probe runtime (detect_runtime_family runtime) = .ok tool
          ∧ detect_runtime_family runtime = .Node
          ∧ run_node_local_test env tool source_path handler payload_path = .error e))
    ∧ (∀ cmd, run_python_local_test env cmd source_path handler payload_path = .error e →
        (∃ msg, env.runProcess cmd
            (python_driver_args source_path (last_dot_segment handler) payload_path) []
            = .error msg ∧ e = .Io msg)
        ∨ (∃ out, env.runProcess cmd
            (python_driver_args source_path (last_dot_segment handler) payload_path) []
            = .ok out ∧ out.success = false
            ∧ e = .Input ("Local python test failed: ".toList
                ++ (if (trimStr out.stderr).isEmpty then "unknown error".toList
                    else trimStr out.stderr))))
    ∧ (∀ cmd, run_node_local_test env cmd source_path handler payload_path = .error e →
        (∃ msg, env.runProcess cmd ["-e".toList, node_driver_script]
            (node_driver_env source_path payload_path handler) = .error msg ∧ e = .Io msg)
        ∨ (∃ out, env.runProcess cmd ["-e".toList, node_driver_script]
            (node_driver_env source_path payload_path handler) = .ok out
            ∧ out.success = false
            ∧ e = .Input ("Local node test failed: ".toList
                ++ (if (trimStr out.stderr).isEmpty then "unknown error".toList
                    else trimStr out.stderr)))) := by
  refine ⟨?_, ?_, ?_⟩
  · intro h
    simp only [run_local_test] at h
    split at h
    next e2 heq =>
      injection h with h2
      left
      rw [heq, h2]
    next tool heq =>
      split at h
      · rename_i hf
        split at h
        next e3 hr =>
          injection h with h3
          exact Or.inr (Or.inl ⟨tool, heq, hf, by rw [hr, h3]⟩)
        next o hr => exact absurd h (by simp)
      · rename_i hf
        split at h
        next e3 hr =>
          injection h with h3
          exact Or.inr (Or.inr ⟨tool, heq, hf, by rw [hr, h3]⟩)
        next o hr => exact absurd h (by simp)
      · exact absurd h (by simp)
      · exact absurd h (by simp)
      · exact absurd h (by simp)
      · exact absurd h (by simp)
  · intro cmd h
    rw [run_python_local_test_eval] at h
    split at h
    next msg hp =>
      injection h with h2
      exact Or.inl ⟨msg, hp, h2.symm⟩
    next out hp =>
      split at h
      · exact absurd h (by simp)
      · rename_i hs
        injection h with h2
        exact Or.inr ⟨out, hp, by simpa using hs, h2.symm⟩
  · intro cmd h
    rw [run_node_local_test_eval] at h
    split at h
    next msg hp =>
      injection h with h2
      exact Or.inl ⟨msg, hp, h2.symm⟩
    next out hp =>
      split at h
      · exact absurd h (by simp)
      · rename_i hs
        injection h with h2
        exact Or.inr ⟨out, hp, by simpa using hs, h2.symm⟩

/-- A machine whose Python driver run exits non-zero with padded stderr. -/
def nonzero_exit_env : ExecEnv :=
  { probe := fun _ => some true,
    runProcess := fun _ _ _ =>
      .ok { success := false, stdout := [], stderr := "  boom  ".toList } }

/-- C9 witness: the amended characterization applied on a machine whose
driver exits non-zero — the failure is classified as the non-zero-exit
case carrying the trimmed stderr text. -/
theorem c9_amended_witness :
    run_local_test nonzero_exit_env ("python:3.11".toList) ("app.handler".toList)
        ("out/fn/app.py".toList) ("out/fn/payload.json".toList)
      = .error (.Input ("Local python test failed: boom".toList))
    ∧ (ensure_toolchain nonzero_exit_env.probe ("python:3.11".toList)
          (detect_runtime_family ("python:3.11".toList))
        = .error (.Input ("Local python test failed: boom".toList))
      ∨ (∃ tool, ensure_toolchain nonzero_exit_env.probe ("python:3.11".toList)
            (detect_runtime_family ("python:3.11".toList)) = .ok tool
          ∧ detect_runtime_family ("python:3.11".toList) = .Python
          ∧ run_python_local_test nonzero_exit_env tool ("out/fn/app.py".toList)
              ("app.handler".toList) ("out/fn/payload.json".toList)
            = .error (.Input ("Local python test failed: boom".toList)))
      ∨ (∃ tool, ensure_toolchain nonzero_exit_env.probe ("python:3.11".toList)
            (detect_runtime_family ("python:3.11".toList)) = .ok tool
          ∧ detect_runtime_family ("python:3.11".toList) = .Node
          ∧ run_node_local_test nonzero_exit_env tool ("out/fn/app.py".toList)
              ("app.handler".toList) ("out/fn/payload.json".toList)
            = .error (.Input ("Local python test failed: boom".toList)))) :=
  ⟨rfl,
    (c9_amended nonzero_exit_env ("python:3.11".toList) ("app.handler".toList)
      ("out/fn/app.py".toList) ("out/fn/payload.json".toList)
      (.Input ("Local python test failed: boom".toList))).1 rfl⟩

/-- The file writes of a trace, in order, with their contents. -/
def writesOf (t : List FsEvent) : List (Str × Str) :=
  t.filterMap fun e =>
    match e with
    | .write_file p c => some (p, c)
    | _ => none

theorem writesOf_nil : writesOf [] = [] := rfl

theorem writesOf_create (p : Str) (t : List FsEvent) :
    writesOf (FsEvent.create_dir p :: t) = writesOf t := rfl

theorem writesOf_write (p c : Str) (t : List FsEvent) :
    writesOf (FsEvent.write_file p c :: t) = (p, c) :: writesOf t := rfl

theorem writesOf_append (t1 t2 : List FsEvent) :
    writesOf (t1 ++ t2) = writesOf t1 ++ writesOf t2 := by
  simp [writesOf, List.filterMap_append]

theorem writesOf_par_trace (o : Option Str) : writesOf (par_trace o) = [] := by
  cases o <;> rfl

/-- An all-whitespace string trims to nothing. -/
theorem trimStr_isEmpty_of_all_whitespace (s : Str)
    (h : s.all Char.isWhitespace = true) : (trimStr s).isEmpty = true := by
  have h1 : s.dropWhile Char.isWhitespace = [] := by
    rw [List.dropWhile_eq_nil_iff]
    intro x hx
    exact List.all_eq_true.mp h x hx
  simp [trimStr, h1]

/-- Unequal final characters make lists unequal. -/
theorem ne_of_reverse_head (l1 l2 : Str) (h : l1.reverse.head? ≠ l2.reverse.head?) :
    l1 ≠ l2 := fun he => h (by rw [he])

/-- Appending a nonempty suffix fixes the final character. -/
theorem reverse_head_append (xs s : Str) (h : s ≠ []) :
    (xs ++ s).reverse.head? = s.reverse.head? := by
  rw [List.reverse_append]
  cases hs : s.reverse with
  | nil => exact absurd (by simpa using hs) h
  | cons a t => simp [hs]

/-- Every layout result is a `.py`/`.js`-suffixed module path or one of
the four fixed names. -/
theorem rel_path_shapes (runtime handler : Str) :
    (∃ xs, source_file_rel_path runtime handler = xs ++ ".py".toList)
    ∨ (∃ xs, source_file_rel_path runtime handler = xs ++ ".js".toList)
    ∨ source_file_rel_path runtime handler = "main.go".toList
    ∨ source_file_rel_path runtime handler = "src/main.rs".toList
    ∨ source_file_rel_path runtime handler = "Main.java".toList
    ∨ source_file_rel_path runtime handler = "function.txt".toList := by
  simp only [source_file_rel_path]
  cases detect_runtime_family runtime
  case Python =>
    cases hr : rsplit_once_dot handler with
    | none => exact Or.inl ⟨"main".toList, by simp [hr]⟩
    | some lr =>
      obtain ⟨l, r⟩ := lr
      by_cases hl : l.isEmpty
      · exact Or.inl ⟨"main".toList, by simp [hr, hl]⟩
      · exact Or.inl ⟨dots_to_slashes l, by simp [hr, hl]⟩
  case Node =>
    cases hr : rsplit_once_dot handler with
    | none => exact Or.inr (Or.inl ⟨"index".toList, by simp [hr]⟩)
    | some lr =>
      obtain ⟨l, r⟩ := lr
      by_cases hl : l.isEmpty
      · exact Or.inr (Or.inl ⟨"index".toList, by simp [hr, hl]⟩)
      · exact Or.inr (Or.inl ⟨dots_to_slashes l, by simp [hr, hl]⟩)
  case Go => exact Or.inr (Or.inr (Or.inl rfl))
  case Rust => exact Or.inr (Or.inr (Or.inr (Or.inl rfl)))
  case Java => exact Or.inr (Or.inr (Or.inr (Or.inr (Or.inl rfl))))
  case Unknown => exact Or.inr (Or.inr (Or.inr (Or.inr (Or.inr rfl))))

/-- The layout result never collides with the payload or metadata file
names. -/
theorem source_file_rel_path_ne (runtime handler : Str) :
    source_file_rel_path runtime handler ≠ "payload.json".toList
    ∧ source_file_rel_path runtime handler ≠ "function.meta.json".toList := by
  rcases rel_path_shapes runtime handler with ⟨xs, hx⟩ | ⟨xs, hx⟩ | hx | hx | hx | hx <;>
    rw [hx] <;>
    refine ⟨?_, ?_⟩ <;>
    first
      | decide
      | (apply ne_of_reverse_head
         rw [reverse_head_append _ _ (by decide)]
         decide)

/-- `path_join` is injective in its second argument. -/
theorem path_join_right_inj (a : Str) {b c : Str} (h : path_join a b = path_join a c) :
    b = c := by
  by_cases h0 : a.isEmpty
  · simpa [path_join, h0] using h
  · by_cases h1 : a.getLast? = some '/'
    · have h2 : a ++ b = a ++ c := by simpa [path_join, h0, h1] using h
      exact List.append_cancel_left h2
    · have h2 : a ++ "/".toList ++ b = a ++ "/".toList ++ c := by
        simpa [path_join, h0, h1] using h
      exact List.append_cancel_left h2

/-- The source file path of a pull differs from its payload and metadata
paths. -/
theorem source_path_ne (base runtime handler : Str) :
    path_join base (source_file_rel_path runtime handler)
        ≠ path_join base ("payload.json".toList)
    ∧ path_join base (source_file_rel_path runtime handler)
        ≠ path_join base ("function.meta.json".toList) :=
  ⟨fun h => (source_file_rel_path_ne runtime handler).1 (path_join_right_inj base h),
   fun h => (source_file_rel_path_ne runtime handler).2 (path_join_right_inj base h)⟩

/-- C5: a pull whose fetched code response carries empty or
whitespace-only source text fails with the input error and performs no
filesystem mutation at all. -/
theorem c5_empty_source_no_writes (env : PullEnv) (a : PullArgs) (fn_info code_info : Json)
    (h1 : env.client_get ("/functions/".toList ++ a.name) = .ok fn_info)
    (h2 : env.client_get ("/functions/".toList ++ a.name ++ "/code".toList) = .ok code_info)
    (h3 : (extract_source_code code_info).all Char.isWhitespace = true) :
    run_pull env a = (.error (.Input ("Function '".toList ++ a.name
      ++ "' does not have source code in control plane.".toList)), []) := by
  have htrim : trimStr (extract_source_code code_info) = [] := by
    simpa using trimStr_isEmpty_of_all_whitespace _ h3
  simp only [run_pull]
  rw [h1, h2]
  simp [htrim]

/-- Remote record used by the C5 witness: the code response's source text
is whitespace-only. -/
def empty_source_env : PullEnv :=
  { client_get := fun p =>
      if p == ("/functions/fn".toList) then
        .ok (.obj [("runtime".toList, .str ("python:3.11".toList)),
                   ("handler".toList, .str ("app.handler".toList))])
      else if p == ("/functions/fn/code".toList) then
        .ok (.obj [("source_code".toList, .str ("   ".toList))])
      else .error (.Api 404 ("not found".toList)),
    dir_exists := fun _ => false,
    create_dir_all := fun _ => .ok (),
    fs_write := fun _ _ => .ok (),
    read_to_string := fun _ => .error ("io".toList),
    from_str := fun _ => .error ("parse".toList),
    to_string_pretty := fun _ => .ok ("\x7b\x7d".toList),
    proc := { probe := fun _ => some true,
              runProcess := fun _ _ _ =>
                .ok { success := true, stdout := [], stderr := [] } } }

def c5_args : PullArgs :=
  { name := "fn".toList, output_dir := "out".toList, force := false, test := false,
    payload := none, payload_file := none }

/-- C5 witness: the theorem applied to a concrete pull whose source text
is `"   "`. -/
theorem c5_empty_source_no_writes_witness :
    (extract_source_code (Json.obj [("source_code".toList, Json.str ("   ".toList))])).all
        Char.isWhitespace = true
    ∧ run_pull empty_source_env c5_args
      = (.error (.Input ("Function 'fn' does not have source code in control plane.".toList)),
         []) :=
  ⟨by decide,
    c5_empty_source_no_writes empty_source_env c5_args _ _ rfl rfl (by decide)⟩

/-- C6: when the pull's target directory already exists, the result turns
on the overwrite flag alone: without it the pull fails with the
"already exists, use --force" input error before any filesystem mutation;
with it the source file, payload.json and function.meta.json are written,
in that order, with contents taken from the just-fetched remote record
(the extracted source text, the pretty-printed payload, and the
pretty-printed metadata record that embeds the fetched function record). -/
theorem c6_overwrite_guard (env : PullEnv) (a : PullArgs) (fn_info code_info : Json)
    (h1 : env.client_get ("/functions/".toList ++ a.name) = .ok fn_info)
    (h2 : env.client_get ("/functions/".toList ++ a.name ++ "/code".toList) = .ok code_info)
    (h3 : (trimStr (extract_source_code code_info)).isEmpty = false)
    (h4 : env.dir_exists (path_join a.output_dir a.name) = true) :
    (a.force = false →
      run_pull env a = (.error (.Input ("Directory '".toList
        ++ path_join a.output_dir a.name
        ++ "' already exists. Use --force to overwrite.".toList)), []))
    ∧ (∀ payload_value payload_text metadata_text,
        a.force = true →
        env.create_dir_all = (fun _ => .ok ()) →
        env.fs_write = (fun _ _ => .ok ()) →
        parse_json_payload env a.payload a.payload_file = .ok payload_value →
        env.to_string_pretty payload_value = .ok payload_text →
        env.to_string_pretty (pull_metadata a.name (extract_runtime fn_info)
          (extract_handler fn_info)
          (source_file_rel_path (extract_runtime fn_info) (extract_handler fn_info))
          fn_info) = .ok metadata_text →
        writesOf (run_pull env a).2 =
          [(path_join (path_join a.output_dir a.name)
              (source_file_rel_path (extract_runtime fn_info) (extract_handler fn_info)),
            extract_source_code code_info),
           (path_join (path_join a.output_dir a.name) ("payload.json".toList),
            payload_text),
           (path_join (path_join a.output_dir a.name) ("function.meta.json".toList),
            metadata_text)]) := by
  have h3' : ¬ trimStr (extract_source_code code_info) = [] := by
    simpa using h3
  constructor
  · intro hforce
    simp only [run_pull]
    rw [h1, h2]
    simp [h3', h4, hforce]
  · intro payload_value payload_text metadata_text hforce hcd hw hparse hpp hpm
    cases hpar : path_parent (path_join (path_join a.output_dir a.name)
        (source_file_rel_path (extract_runtime fn_info) (extract_handler fn_info))) with
    | none =>
      simp only [run_pull]
      rw [h1, h2]
      simp [h3', h4, hforce, hcd, hw, hparse, hpp, hpm, hpar, writesOf_par_trace,
        writesOf_append, writesOf_create, writesOf_write, writesOf_nil]
    | some par =>
      simp only [run_pull]
      rw [h1, h2]
      simp [h3', h4, hforce, hcd, hw, hparse, hpp, hpm, hpar, writesOf_par_trace,
        writesOf_append, writesOf_create, writesOf_write, writesOf_nil]

/-- Remote record and machine used by the C6 witness. -/
def pull_test_env : PullEnv :=
  { client_get := fun p =>
      if p == ("/functions/fn".toList) then
        .ok (.obj [("runtime".toList, .str ("python:3.11".toList)),
                   ("handler".toList, .str ("app.handler".toList))])
      else if p == ("/functions/fn/code".toList) then
        .ok (.obj [("source_code".toList, .str ("print(1)".toList))])
      else .error (.Api 404 ("not found".toList)),
    dir_exists := fun _ => true,
    create_dir_all := fun _ => .ok (),
    fs_write := fun _ _ => .ok (),
    read_to_string := fun _ => .error ("io".toList),
    from_str := fun _ => .error ("parse".toList),
    to_string_pretty := fun _ => .ok ("\x7b\x7d".toList),
    proc := { probe := fun _ => some true,
              runProcess := fun _ _ _ =>
                .ok { success := true, stdout := [], stderr := [] } } }

def c6_args_noforce : PullArgs :=
  { name := "fn".toList, output_dir := "out".toList, force := false, test := false,
    payload := none, payload_file := none }

def c6_args_force : PullArgs :=
  { name := "fn".toList, output_dir := "out".toList, force := true, test := false,
    payload := none, payload_file := none }

/-- C6 witness: both halves of the guard applied to a concrete pull whose
target directory exists. -/
theorem c6_overwrite_guard_witness :
    run_pull pull_test_env c6_args_noforce
      = (.error (.Input ("Directory 'out/fn' already exists. Use --force to overwrite.".toList)),
         [])
    ∧ writesOf (run_pull pull_test_env c6_args_force).2 =
        [("out/fn/app.py".toList, "print(1)".toList),
         ("out/fn/payload.json".toList, "\x7b\x7d".toList),
         ("out/fn/function.meta.json".toList, "\x7b\x7d".toList)] :=
  ⟨(c6_overwrite_guard pull_test_env c6_args_noforce _ _ rfl rfl (by decide) rfl).1 rfl,
   (c6_overwrite_guard pull_test_env c6_args_force _ _ rfl rfl (by decide) rfl).2
     (Json.obj []) ("\x7b\x7d".toList) ("\x7b\x7d".toList) rfl rfl rfl rfl rfl rfl⟩

/-- C7: in every execution of `run_pull` the file writes happen in the
order source file, then payload.json, then function.meta.json — the
sequence of file writes of any run is a prefix of those three, and the
source path differs from the other two, so at no intermediate point does
the metadata file exist without the source and payload files it
references. -/
theorem c7_write_order (env : PullEnv) (a : PullArgs) :
    writesOf (run_pull env a).2 = []
    ∨ (∃ sp sc, writesOf (run_pull env a).2 = [(sp, sc)]
        ∧ sp ≠ path_join (path_join a.output_dir a.name) ("payload.json".toList)
        ∧ sp ≠ path_join (path_join a.output_dir a.name) ("function.meta.json".toList))
    ∨ (∃ sp sc pc, writesOf (run_pull env a).2 =
          [(sp, sc),
           (path_join (path_join a.output_dir a.name) ("payload.json".toList), pc)]
        ∧ sp ≠ path_join (path_join a.output_dir a.name) ("payload.json".toList)
        ∧ sp ≠ path_join (path_join a.output_dir a.name) ("function.meta.json".toList))
    ∨ (∃ sp sc pc mc, writesOf (run_pull env a).2 =
          [(sp, sc),
           (path_join (path_join a.output_dir a.name) ("payload.json".toList), pc),
           (path_join (path_join a.output_dir a.name) ("function.meta.json".toList), mc)]
        ∧ sp ≠ path_join (path_join a.output_dir a.name) ("payload.json".toList)
        ∧ sp ≠ path_join (path_join a.output_dir a.name) ("function.meta.json".toList)) := by
  simp only [run_pull]
  repeat' split
  all_goals first
    | exact Or.inl rfl
    | exact Or.inr (Or.inl ⟨_, _, rfl,
        (source_path_ne (path_join a.output_dir a.name) _ _).1,
        (source_path_ne (path_join a.output_dir a.name) _ _).2⟩)
    | exact Or.inr (Or.inr (Or.inl ⟨_, _, _, rfl,
        (source_path_ne (path_join a.output_dir a.name) _ _).1,
        (source_path_ne (path_join a.output_dir a.name) _ _).2⟩))
    | exact Or.inr (Or.inr (Or.inr ⟨_, _, _, _, rfl,
        (source_path_ne (path_join a.output_dir a.name) _ _).1,
        (source_path_ne (path_join a.output_dir a.name) _ _).2⟩))

end Orbit
